import Mathlib

/-!
Verification development for the "Bahan Baku MBG" inventory application.

The analytics aggregation and export subsystem (src/pages/Analytics.tsx), the
returns creation handler (src/pages/Returns.tsx) and the fetch cycle are
shallowly embedded below.  JavaScript numbers that the application only ever
uses as non-negative integers (quantities, prices, timestamps) are modelled as
naturals; the quality pass rate, which divides, is modelled over the rationals,
with `Number.prototype.toFixed(1)` modelled as rounding (half away from zero on
non-negative input, as the ECMAScript specification prescribes) to tenths.
Timestamps are modelled as calendar dates: the code only ever observes them
through `date-fns`' `format(-, "MMM dd, yyyy")` and through
`toISOString().split('T')[0]`, both of which are embedded explicitly.
-/

/-- A calendar date, the observable content of the `created_at` /
`inspection_date` timestamp columns. -/
structure Date where
  year : Nat
  month : Nat
  day : Nat
deriving DecidableEq

/-- Lexicographic order on dates (year, then month, then day). -/
def dateLe (a b : Date) : Prop :=
  a.year < b.year ∨
    (a.year = b.year ∧ (a.month < b.month ∨ (a.month = b.month ∧ a.day ≤ b.day)))

instance (a b : Date) : Decidable (dateLe a b) := by
  unfold dateLe; infer_instance

/-- Holds when `a` is at least as recent as `b`: descending fetch order is
`List.Pairwise dateGe`. -/
def dateGe (a b : Date) : Prop := dateLe b a

instance (a b : Date) : Decidable (dateGe a b) := by
  unfold dateGe; infer_instance

/-- A row of the `products` table as consumed by Analytics.tsx. -/
structure Product where
  id : String
  name : String
  category : String
  color : String
  quantity : Nat
  price : Nat
  created_at : Date
deriving DecidableEq

/-- A row of the `rejected_items` table as consumed by Analytics.tsx. -/
structure RejectedItem where
  id : String
  product_name : String
  quantity : Nat
  reason : String
  created_at : Date
deriving DecidableEq

/-- A row of the `food_conditions` table as consumed by Analytics.tsx. -/
structure FoodCondition where
  id : String
  product_name : String
  condition : String
  fit_for_processing : Bool
  inspection_date : Date
deriving DecidableEq

/-- Embeds `products.reduce((sum, p) => sum + (p.price * p.quantity), 0)`
(Analytics.tsx line 111). -/
def totalMaterialsValue (products : List Product) : Nat :=
  products.foldl (fun sum p => sum + p.price * p.quantity) 0

/-- Embeds `rejectedItems.reduce((sum, r) => sum + r.quantity, 0)`
(Analytics.tsx line 112). -/
def totalRejectedQuantity (rejectedItems : List RejectedItem) : Nat :=
  rejectedItems.foldl (fun sum r => sum + r.quantity) 0

/-- Embeds `products.reduce((sum, p) => sum + p.quantity, 0)`
(Analytics.tsx line 113). -/
def totalMaterialsInStock (products : List Product) : Nat :=
  products.foldl (fun sum p => sum + p.quantity) 0

/-- Embeds `foodConditions.filter(f => f.fit_for_processing).length`
(Analytics.tsx line 115). -/
def fitCount (foodConditions : List FoodCondition) : Nat :=
  (foodConditions.filter (fun f => f.fit_for_processing)).length

/-- The pass rate in tenths of a percent:
`(fit / total * 100).toFixed(1)` keeps one decimal digit, i.e. rounds
`fit / total * 100 * 10` to the nearest integer (ties away from zero; the
operand is non-negative, so `round` agrees). -/
def qualityPassRateTenths (foodConditions : List FoodCondition) : Int :=
  round ((fitCount foodConditions : ℚ) / (foodConditions.length : ℚ) * 100 * 10)

/-- The numeric value of `qualityPassRate` (Analytics.tsx lines 114-116):
the ternary guards on `foodConditions.length > 0` and yields `0` otherwise. -/
def qualityPassRate (foodConditions : List FoodCondition) : ℚ :=
  if 0 < foodConditions.length then
    (qualityPassRateTenths foodConditions : ℚ) / 10
  else 0

/-- Decimal rendering of a tenths value with exactly one digit after the
point, as `toFixed(1)` prints it. -/
def toFixed1 (tenths : Nat) : String :=
  Nat.repr (tenths / 10) ++ "." ++ Nat.repr (tenths % 10)

/-- The displayed pass rate: the string produced by `toFixed(1)` in the
non-empty branch, and the number `0` (displayed as "0") otherwise. -/
def qualityPassRateStr (foodConditions : List FoodCondition) : String :=
  if 0 < foodConditions.length then
    toFixed1 (qualityPassRateTenths foodConditions).toNat
  else "0"

/-- The English month abbreviations used by `date-fns`' `MMM` pattern. -/
def monthNames : List String :=
  ["Jan", "Feb", "Mar", "Apr", "May", "Jun",
   "Jul", "Aug", "Sep", "Oct", "Nov", "Dec"]

/-- Abbreviated name of month `m` (1-based). -/
def monthName (m : Nat) : String := monthNames.getD (m - 1) "Jan"

/-- Two-digit zero padding, as in the `dd` pattern and in ISO fields. -/
def pad2 (n : Nat) : String :=
  if n < 10 then "0" ++ Nat.repr n else Nat.repr n

/-- Three-digit zero padding, as in the ISO millisecond field. -/
def pad3 (n : Nat) : String :=
  if n < 10 then "00" ++ Nat.repr n
  else if n < 100 then "0" ++ Nat.repr n
  else Nat.repr n

/-- Four-digit zero padding, as in the ISO year field. -/
def pad4 (n : Nat) : String :=
  if n < 10 then "000" ++ Nat.repr n
  else if n < 100 then "00" ++ Nat.repr n
  else if n < 1000 then "0" ++ Nat.repr n
  else Nat.repr n

/-- Embeds `format(new Date(d), "MMM dd, yyyy")`: note the literal comma of the
format pattern, which every formatted date therefore contains. -/
def formatMMMddyyyy (d : Date) : String :=
  monthName d.month ++ " " ++ pad2 d.day ++ ", " ++ Nat.repr d.year

/-- Embeds `row.join(sep)` for a single-character separator, the JavaScript
`Array.prototype.join` used by `handleExportExcel`. -/
def joinChar (sep : Char) (cells : List String) : String :=
  ⟨List.intercalate [sep] (cells.map String.data)⟩

/-- Embeds `s.split(sep)` for a single-character separator, the JavaScript
`String.prototype.split` used in the filename computation and in the
round-trip re-parse described by the specification. -/
def splitChar (sep : Char) (s : String) : List String :=
  (s.data.splitOnP (fun c => c == sep)).map (fun cs => ⟨cs⟩)

/-- The union header row of the CSV export (Analytics.tsx line 196). -/
def csvHeader : List String :=
  ["Type", "Date", "Material", "Category/Reason", "Quantity", "Price", "Total Value"]

/-- One CSV row per product (Analytics.tsx lines 175-183); numbers are
stringified by `join` exactly as `Nat.repr` prints them. -/
def productRow (p : Product) : List String :=
  ["Product", formatMMMddyyyy p.created_at, p.name, p.category,
   Nat.repr p.quantity, Nat.repr p.price, Nat.repr (p.price * p.quantity)]

/-- One CSV row per rejected item (Analytics.tsx lines 185-193). -/
def rejectedRow (r : RejectedItem) : List String :=
  ["Rejected", formatMMMddyyyy r.created_at, r.product_name, r.reason,
   Nat.repr r.quantity, "-", "-"]

/-- The row matrix of the CSV export: header, then products, then rejected
items (Analytics.tsx lines 195-198). -/
def csvRows (products : List Product) (rejectedItems : List RejectedItem) :
    List (List String) :=
  csvHeader :: (products.map productRow ++ rejectedItems.map rejectedRow)

/-- Embeds the final `map(row => row.join(',')).join('\n')` step (Analytics.tsx line 199). -/
def csvContent (products : List Product) (rejectedItems : List RejectedItem) :
    String :=
  joinChar '\n' ((csvRows products rejectedItems).map (joinChar ','))

/-- The `(data, error)` pair a table query resolves with: `data` may be null
and `error` is null exactly when the fetch succeeded. -/
structure FetchRes (α : Type) where
  data : Option (List α)
  error : Bool
deriving DecidableEq

/-- The component state touched by `fetchAllData`. -/
structure AnalyticsState where
  products : List Product
  rejectedItems : List RejectedItem
  foodConditions : List FoodCondition
  loading : Bool
deriving DecidableEq

/-- Embeds `fetchAllData` (Analytics.tsx lines 74-108): three sequential awaited
fetches inside one try block; a non-null `error` on any of them throws, so
none of the three `set*` calls runs, and the `finally` clause clears
`loading` on every path.  A null `data` is replaced by `[]` (`data || []`). -/
def fetchAllData (s : AnalyticsState) (productsRes : FetchRes Product)
    (rejectedRes : FetchRes RejectedItem) (conditionsRes : FetchRes FoodCondition) :
    AnalyticsState :=
  if productsRes.error then { s with loading := false }
  else if rejectedRes.error then { s with loading := false }
  else if conditionsRes.error then { s with loading := false }
  else
    { products := productsRes.data.getD []
      rejectedItems := rejectedRes.data.getD []
      foodConditions := conditionsRes.data.getD []
      loading := false }

/-- Decimal value of a digit list, most significant first. -/
def digitsVal (cs : List Char) : Nat :=
  cs.foldl (fun n c => n * 10 + (c.toNat - '0'.toNat)) 0

/-- JavaScript `parseInt(s)` (radix 10): an optional sign followed by the
longest prefix of decimal digits; `none` models `NaN` (no digit found). -/
def jsParseInt (s : String) : Option Int :=
  match s.data with
  | '-' :: cs =>
      let ds := cs.takeWhile Char.isDigit
      if ds.isEmpty then none else some (-(digitsVal ds : Int))
  | cs =>
      let ds := cs.takeWhile Char.isDigit
      if ds.isEmpty then none else some (digitsVal ds)

/-- The form state of the Returns page. -/
structure ReturnsForm where
  product_name : String
  quantity : String
  reason : String
deriving DecidableEq

/-- The record inserted into the `returns` table. -/
structure ReturnInsert where
  return_number : String
  product_name : String
  quantity : Int
  reason : String
  user_id : String
  status : String
deriving DecidableEq

/-- Embeds the template `RET-` followed by `Date.now()` (Returns.tsx line 67): the timestamp is a
non-negative integer, stringified in decimal. -/
def mkReturnNumber (now : Nat) : String := "RET-" ++ Nat.repr now

/-- Embeds `handleSubmit` (Returns.tsx lines 61-98): without a user nothing is
inserted; otherwise the inserted record carries the generated return number,
the parsed quantity (`parseInt(formData.quantity)`; the `getD 0` default is
never taken on parseable input) and the literal status `"pending"`. -/
def handleSubmit (user : Option String) (form : ReturnsForm) (now : Nat) :
    Option ReturnInsert :=
  match user with
  | none => none
  | some uid =>
      some { return_number := mkReturnNumber now
             product_name := form.product_name
             quantity := (jsParseInt form.quantity).getD 0
             reason := form.reason
             user_id := uid
             status := "pending" }

/-- Decides the regular expression `RET-\d+`: the literal prefix followed by
at least one decimal digit. -/
def matchesRETNumber (s : String) : Bool :=
  match s.data with
  | 'R' :: 'E' :: 'T' :: '-' :: ds => !ds.isEmpty && ds.all Char.isDigit
  | _ => false

/-- A generation instant, the observable content of `new Date()` at export
time. -/
structure DateTime where
  year : Nat
  month : Nat
  day : Nat
  hour : Nat
  minute : Nat
  second : Nat
  ms : Nat
deriving DecidableEq

/-- Embeds `new Date().toISOString()`: `YYYY-MM-DDTHH:mm:ss.sssZ`. -/
def toISOString (t : DateTime) : String :=
  pad4 t.year ++ "-" ++ pad2 t.month ++ "-" ++ pad2 t.day ++ "T" ++
    pad2 t.hour ++ ":" ++ pad2 t.minute ++ ":" ++ pad2 t.second ++ "." ++
    pad3 t.ms ++ "Z"

/-- Embeds `new Date().toISOString().split('T')[0]` (Analytics.tsx lines 165, 205). -/
def isoDatePart (t : DateTime) : String :=
  ((splitChar 'T' (toISOString t)).headD "")

/-- The PDF filename (Analytics.tsx line 165). -/
def pdfFilename (t : DateTime) : String :=
  "material-analytics-" ++ isoDatePart t ++ ".pdf"

/-- The CSV filename (Analytics.tsx line 205). -/
def csvFilename (t : DateTime) : String :=
  "material-analytics-" ++ isoDatePart t ++ ".csv"

/-- Modelled from the spec: the `<YYYY-MM-DD>` ISO date of generation that
section 6 says the export filenames embed. -/
def isoDate (t : DateTime) : String :=
  pad4 t.year ++ "-" ++ pad2 t.month ++ "-" ++ pad2 t.day

/-- The product of the scenario in section 8 of the specification. -/
def berasProduct : Product :=
  { id := "p1", name := "Beras", category := "Grain", color := "White",
    quantity := 10, price := 12000, created_at := ⟨2026, 1, 1⟩ }

/-- A second sample product, dated after `berasProduct`. -/
def gulaProduct : Product :=
  { id := "p2", name := "Gula", category := "Sweetener", color := "Brown",
    quantity := 5, price := 8000, created_at := ⟨2026, 1, 2⟩ }

/-- A sample rejected item. -/
def tepungRejected : RejectedItem :=
  { id := "r1", product_name := "Tepung", quantity := 3, reason := "moldy",
    created_at := ⟨2026, 1, 3⟩ }

/-- The FoodConditions scenario of section 8: two fit, two unfit. -/
def scenarioFoodConditions : List FoodCondition :=
  [{ id := "f1", product_name := "Beras", condition := "Fresh",
     fit_for_processing := true, inspection_date := ⟨2026, 1, 1⟩ },
   { id := "f2", product_name := "Gula", condition := "Fresh",
     fit_for_processing := true, inspection_date := ⟨2026, 1, 2⟩ },
   { id := "f3", product_name := "Tepung", condition := "Stale",
     fit_for_processing := false, inspection_date := ⟨2026, 1, 3⟩ },
   { id := "f4", product_name := "Garam", condition := "Stale",
     fit_for_processing := false, inspection_date := ⟨2026, 1, 4⟩ }]

/-- A failed fetch: non-null error, null data. -/
def failRes {α : Type} : FetchRes α := ⟨none, true⟩

/-- A successful fetch resolving with `l`. -/
def okRes {α : Type} (l : List α) : FetchRes α := ⟨some l, false⟩

theorem foldl_add_map {α : Type} (f : α → Nat) :
    ∀ (l : List α) (a : Nat), l.foldl (fun s x => s + f x) a = a + (l.map f).sum := by
  intro l
  induction l with
  | nil => simp
  | cons x xs ih => intro a; simp [ih, Nat.add_assoc]

theorem digitChar_isDigit : ∀ n, n < 10 → (Nat.digitChar n).isDigit = true := by
  decide

theorem toDigitsCore_all_digits :
    ∀ (fuel n : Nat) (ds : List Char), (∀ c ∈ ds, c.isDigit = true) →
      ∀ c ∈ Nat.toDigitsCore 10 fuel n ds, c.isDigit = true := by
  intro fuel
  induction fuel with
  | zero => intro n ds h; simpa [Nat.toDigitsCore] using h
  | succ fuel ih =>
      intro n ds h
      simp only [Nat.toDigitsCore]
      split
      · intro c hc
        rcases List.mem_cons.mp hc with rfl | hc
        · exact digitChar_isDigit _ (Nat.mod_lt _ (by norm_num))
        · exact h c hc
      · apply ih
        intro c hc
        rcases List.mem_cons.mp hc with rfl | hc
        · exact digitChar_isDigit _ (Nat.mod_lt _ (by norm_num))
        · exact h c hc

theorem toDigitsCore_ne_nil :
    ∀ (fuel n : Nat) (ds : List Char), ds ≠ [] → Nat.toDigitsCore 10 fuel n ds ≠ [] := by
  intro fuel
  induction fuel with
  | zero => intro n ds h; simpa [Nat.toDigitsCore] using h
  | succ fuel ih =>
      intro n ds h
      simp only [Nat.toDigitsCore]
      split
      · simp
      · exact ih _ _ (by simp)

theorem repr_data (n : Nat) : (Nat.repr n).data = Nat.toDigits 10 n := rfl

theorem repr_all_digits (n : Nat) : ∀ c ∈ (Nat.repr n).data, c.isDigit = true := by
  rw [repr_data]
  exact toDigitsCore_all_digits _ _ _ (by simp)

theorem repr_data_ne_nil (n : Nat) : (Nat.repr n).data ≠ [] := by
  rw [repr_data]
  unfold Nat.toDigits
  simp only [Nat.toDigitsCore]
  split
  · simp
  · exact toDigitsCore_ne_nil _ _ _ (by simp)

theorem splitOnP_intercalate_eq {α : Type} [DecidableEq α] (p : α → Bool) (sep : α)
    (hsep : p sep = true) :
    ∀ (ls : List (List α)), ls ≠ [] → (∀ l ∈ ls, ∀ c ∈ l, ¬ p c) →
      (List.intercalate [sep] ls).splitOnP p = ls := by
  intro ls
  induction ls with
  | nil => intro h; exact absurd rfl h
  | cons l rest ih =>
      intro _ h
      cases rest with
      | nil =>
          have h1 : List.intercalate [sep] [l] = l := by
            simp [List.intercalate]
          rw [h1]
          exact List.splitOnP_eq_single _ _ (fun c hc => h l (by simp) c hc)
      | cons l2 rest2 =>
          have h1 : List.intercalate [sep] (l :: l2 :: rest2) =
              l ++ sep :: List.intercalate [sep] (l2 :: rest2) := by
            simp [List.intercalate, List.intersperse_cons_cons]
          rw [h1, List.splitOnP_first _ _ (fun c hc => h l (by simp) c hc) sep hsep,
            ih (by simp) (fun m hm c hc => h m (by simp [hm]) c hc)]

theorem splitChar_joinChar (sep : Char) (cells : List String) (hne : cells ≠ [])
    (h : ∀ s ∈ cells, ∀ c ∈ s.data, ¬ c = sep) :
    splitChar sep (joinChar sep cells) = cells := by
  unfold splitChar joinChar
  rw [splitOnP_intercalate_eq (fun c => c == sep) sep (by simp) (cells.map String.data)
    (by simpa using hne)
    (by
      intro l hl c hc
      rcases List.mem_map.mp hl with ⟨s, hs, rfl⟩
      simpa using h s hs c hc)]
  rw [List.map_map]
  have he : ((fun cs => (⟨cs⟩ : String)) ∘ String.data) = id := funext fun s => rfl
  rw [he, List.map_id]

theorem pad2_all_digits (n : Nat) : ∀ c ∈ (pad2 n).data, c.isDigit = true := by
  unfold pad2
  split
  · intro c hc
    rcases List.mem_append.mp hc with hc | hc
    · rcases List.mem_singleton.mp hc with rfl
      decide
    · exact repr_all_digits n c hc
  · exact repr_all_digits n

theorem pad3_all_digits (n : Nat) : ∀ c ∈ (pad3 n).data, c.isDigit = true := by
  unfold pad3
  split
  · intro c hc
    rcases List.mem_append.mp hc with hc | hc
    · rcases List.mem_cons.mp hc with rfl | hc
      · decide
      · rcases List.mem_singleton.mp hc with rfl
        decide
    · exact repr_all_digits n c hc
  · split
    · intro c hc
      rcases List.mem_append.mp hc with hc | hc
      · rcases List.mem_singleton.mp hc with rfl
        decide
      · exact repr_all_digits n c hc
    · exact repr_all_digits n

theorem pad4_all_digits (n : Nat) : ∀ c ∈ (pad4 n).data, c.isDigit = true := by
  unfold pad4
  split
  · intro c hc
    rcases List.mem_append.mp hc with hc | hc
    · fin_cases hc <;> decide
    · exact repr_all_digits n c hc
  · split
    · intro c hc
      rcases List.mem_append.mp hc with hc | hc
      · fin_cases hc <;> decide
      · exact repr_all_digits n c hc
    · split
      · intro c hc
        rcases List.mem_append.mp hc with hc | hc
        · rcases List.mem_singleton.mp hc with rfl
          decide
        · exact repr_all_digits n c hc
      · exact repr_all_digits n

theorem isDigit_not_beq_T (c : Char) (h : c.isDigit = true) : ¬ (c == 'T') = true := by
  intro hT
  rw [beq_iff_eq] at hT
  subst hT
  exact absurd h (by decide)

theorem isoDate_no_T (t : DateTime) : ∀ c ∈ (isoDate t).data, ¬ (c == 'T') = true := by
  intro c hc
  unfold isoDate at hc
  simp only [String.data_append, List.mem_append] at hc
  rcases hc with (((hc | hc) | hc) | hc) | hc
  · exact isDigit_not_beq_T c (pad4_all_digits t.year c hc)
  · rcases List.mem_singleton.mp hc with rfl
    decide
  · exact isDigit_not_beq_T c (pad2_all_digits t.month c hc)
  · rcases List.mem_singleton.mp hc with rfl
    decide
  · exact isDigit_not_beq_T c (pad2_all_digits t.day c hc)

theorem matchesRETNumber_mkReturnNumber (n : Nat) :
    matchesRETNumber (mkReturnNumber n) = true := by
  unfold matchesRETNumber mkReturnNumber
  have hdata : ("RET-" ++ Nat.repr n).data = 'R' :: 'E' :: 'T' :: '-' :: (Nat.repr n).data := by
    rw [String.data_append]
    rfl
  rw [hdata]
  show (!(Nat.repr n).data.isEmpty && (Nat.repr n).data.all Char.isDigit) = true
  rw [Bool.and_eq_true]
  constructor
  · have hne := repr_data_ne_nil n
    cases h : (Nat.repr n).data with
    | nil => exact absurd h hne
    | cons c cs => simp
  · rw [List.all_eq_true]
    exact repr_all_digits n

theorem fetchAllData_loading_false (s : AnalyticsState) (pr : FetchRes Product)
    (rr : FetchRes RejectedItem) (cr : FetchRes FoodCondition) :
    (fetchAllData s pr rr cr).loading = false := by
  unfold fetchAllData
  split_ifs <;> rfl

/-- C1: for every non-empty FoodConditions set the quality pass rate is the
share of records fit for processing times 100, rounded to one decimal place
(an integer number of tenths within 1/20 of the exact ratio); for the empty
set the pass rate is 0 with no division-by-zero; and on the scenario
[{fit:true},{fit:true},{fit:false},{fit:false}] the displayed rate is
"50.0". -/
theorem qualityPassRate_correct (fcs : List FoodCondition) (h : fcs ≠ []) :
    (∃ k : ℤ, qualityPassRate fcs = (k : ℚ) / 10 ∧
      |qualityPassRate fcs - (fitCount fcs : ℚ) / (fcs.length : ℚ) * 100| ≤ 1 / 20) ∧
    qualityPassRate [] = 0 ∧
    qualityPassRateStr scenarioFoodConditions = "50.0" := by
  have h0 : 0 < fcs.length := List.length_pos.mpr h
  have hT : qualityPassRateTenths scenarioFoodConditions = 500 := by
    have e1 : ((fitCount scenarioFoodConditions : ℕ) : ℚ) = 2 := by
      norm_num [show fitCount scenarioFoodConditions = 2 from rfl]
    have e2 : ((scenarioFoodConditions.length : ℕ) : ℚ) = 4 := by
      norm_num [show scenarioFoodConditions.length = 4 from rfl]
    unfold qualityPassRateTenths
    rw [e1, e2, round_eq, show ((2 : ℚ) / 4 * 100 * 10 + 1 / 2) = 500 + 1 / 2 by norm_num,
      Int.floor_eq_iff]
    constructor <;> norm_num
  refine ⟨⟨qualityPassRateTenths fcs, ?_, ?_⟩, rfl, ?_⟩
  · unfold qualityPassRate
    rw [if_pos h0]
  · set x : ℚ := (fitCount fcs : ℚ) / (fcs.length : ℚ) * 100 with hxdef
    have hq : qualityPassRate fcs = (round (x * 10) : ℚ) / 10 := by
      unfold qualityPassRate qualityPassRateTenths
      rw [if_pos h0]
    have hb := abs_sub_round (x * 10)
    have hb2 : |(round (x * 10) : ℚ) - x * 10| ≤ 1 / 2 := by
      rw [abs_sub_comm]; exact hb
    have h2 : (round (x * 10) : ℚ) / 10 - x = ((round (x * 10) : ℚ) - x * 10) / 10 := by
      ring
    rw [hq, h2, abs_div, show |(10 : ℚ)| = 10 by norm_num, div_le_iff₀ (by norm_num)]
    linarith
  · unfold qualityPassRateStr
    rw [if_pos (by decide : 0 < scenarioFoodConditions.length), hT]
    decide

/-- Closed instance of C1 at the section-8 scenario, whose list is non-empty. -/
theorem qualityPassRate_correct_witness :
    scenarioFoodConditions ≠ [] ∧
    ((∃ k : ℤ, qualityPassRate scenarioFoodConditions = (k : ℚ) / 10 ∧
        |qualityPassRate scenarioFoodConditions -
          (fitCount scenarioFoodConditions : ℚ) /
            (scenarioFoodConditions.length : ℚ) * 100| ≤ 1 / 20) ∧
      qualityPassRate [] = 0 ∧
      qualityPassRateStr scenarioFoodConditions = "50.0") :=
  ⟨by decide, qualityPassRate_correct scenarioFoodConditions (by decide)⟩

/-- C2: the total materials value is the sum over products of price times
quantity, and it is invariant under any permutation of the input records. -/
theorem totalMaterialsValue_correct (ps qs : List Product) (h : ps.Perm qs) :
    totalMaterialsValue ps = (ps.map (fun p => p.price * p.quantity)).sum ∧
    totalMaterialsValue ps = totalMaterialsValue qs := by
  have key : ∀ l : List Product,
      totalMaterialsValue l = (l.map (fun p => p.price * p.quantity)).sum := by
    intro l
    unfold totalMaterialsValue
    rw [foldl_add_map]
    simp
  refine ⟨key ps, ?_⟩
  rw [key ps, key qs]
  exact List.Perm.sum_eq (h.map _)

/-- Closed instance of C2 at a concrete two-element reordering. -/
theorem totalMaterialsValue_correct_witness :
    ([berasProduct, gulaProduct].Perm [gulaProduct, berasProduct]) ∧
    (totalMaterialsValue [berasProduct, gulaProduct] =
        ([berasProduct, gulaProduct].map (fun p => p.price * p.quantity)).sum ∧
      totalMaterialsValue [berasProduct, gulaProduct] =
        totalMaterialsValue [gulaProduct, berasProduct]) :=
  ⟨by decide, totalMaterialsValue_correct _ _ (by decide)⟩

/-- C5: total stock is the sum of product quantities, total rejected is the
sum of rejected quantities, empty record sets yield zero aggregates, and the
section-8 scenario (Products = [Beras 12000 x 10], RejectedItems = []) gives
totalValue 120000, totalStock 10, totalRejected 0, passRate 0. -/
theorem totals_correct :
    (∀ ps : List Product,
      totalMaterialsInStock ps = (ps.map (fun p => p.quantity)).sum) ∧
    (∀ rs : List RejectedItem,
      totalRejectedQuantity rs = (rs.map (fun r => r.quantity)).sum) ∧
    totalMaterialsValue [] = 0 ∧ totalMaterialsInStock [] = 0 ∧
    totalRejectedQuantity [] = 0 ∧ qualityPassRate [] = 0 ∧
    totalMaterialsValue [berasProduct] = 120000 ∧
    totalMaterialsInStock [berasProduct] = 10 := by
  refine ⟨?_, ?_, rfl, rfl, rfl, rfl, by decide, by decide⟩
  · intro ps
    unfold totalMaterialsInStock
    rw [foldl_add_map]
    simp
  · intro rs
    unfold totalRejectedQuantity
    rw [foldl_add_map]
    simp

/-- C9: the fetch cycle is all-or-nothing — when any of the three sequential
fetches reports an error, none of the three record-set states changes, and
the loading flag is cleared on the error path as well as on the success
path. -/
theorem fetchAllData_all_or_nothing (s : AnalyticsState) (pr : FetchRes Product)
    (rr : FetchRes RejectedItem) (cr : FetchRes FoodCondition)
    (h : pr.error = true ∨ rr.error = true ∨ cr.error = true) :
    (fetchAllData s pr rr cr).products = s.products ∧
    (fetchAllData s pr rr cr).rejectedItems = s.rejectedItems ∧
    (fetchAllData s pr rr cr).foodConditions = s.foodConditions ∧
    (fetchAllData s pr rr cr).loading = false ∧
    ∀ (s2 : AnalyticsState) (pr2 : FetchRes Product) (rr2 : FetchRes RejectedItem)
      (cr2 : FetchRes FoodCondition), (fetchAllData s2 pr2 rr2 cr2).loading = false := by
  have hkeep : fetchAllData s pr rr cr = { s with loading := false } := by
    unfold fetchAllData
    split_ifs with h1 h2 h3
    · rfl
    · rfl
    · rfl
    · exfalso
      rcases h with h | h | h
      · exact h1 h
      · exact h2 h
      · exact h3 h
  rw [hkeep]
  exact ⟨rfl, rfl, rfl, rfl, fetchAllData_loading_false⟩

/-- Closed instance of C9: the rejected-items fetch fails while the other
two succeed, and the prior state survives untouched. -/
theorem fetchAllData_all_or_nothing_witness :
    ((okRes [berasProduct] : FetchRes Product).error = true ∨
      (failRes : FetchRes RejectedItem).error = true ∨
      (okRes [] : FetchRes FoodCondition).error = true) ∧
    ((fetchAllData ⟨[gulaProduct], [tepungRejected], [], true⟩
        (okRes [berasProduct]) failRes (okRes [])).products = [gulaProduct] ∧
      (fetchAllData ⟨[gulaProduct], [tepungRejected], [], true⟩
        (okRes [berasProduct]) failRes (okRes [])).rejectedItems = [tepungRejected] ∧
      (fetchAllData ⟨[gulaProduct], [tepungRejected], [], true⟩
        (okRes [berasProduct]) failRes (okRes [])).foodConditions = [] ∧
      (fetchAllData ⟨[gulaProduct], [tepungRejected], [], true⟩
        (okRes [berasProduct]) failRes (okRes [])).loading = false ∧
      ∀ (s2 : AnalyticsState) (pr2 : FetchRes Product) (rr2 : FetchRes RejectedItem)
        (cr2 : FetchRes FoodCondition), (fetchAllData s2 pr2 rr2 cr2).loading = false) :=
  ⟨Or.inr (Or.inl rfl),
    fetchAllData_all_or_nothing ⟨[gulaProduct], [tepungRejected], [], true⟩
      (okRes [berasProduct]) failRes (okRes []) (Or.inr (Or.inl rfl))⟩

/-- C4 is false on the code: with a prior empty products state, a successful
products fetch resolving with [berasProduct], a failing rejected-items fetch
and a successful food-conditions fetch, the claim predicts that the products
state becomes [berasProduct]; the code leaves it empty (the throw in the
shared try block skips every state update). -/
theorem fetchAllData_partial_counterexample :
    ¬ ((fetchAllData ⟨[], [], [], true⟩ (okRes [berasProduct]) failRes
        (okRes [])).products = [berasProduct]) ∧
    (fetchAllData ⟨[], [], [], true⟩ (okRes [berasProduct]) failRes
        (okRes [])).products = [] := by
  decide

/-- C4 (amended): when exactly one of the three fetches fails and the other
two succeed, the successful fetches' results are NOT applied — the whole
update is discarded, every record set keeps its prior value and only the
loading flag is cleared. -/
theorem fetchAllData_failure_discards_all (s : AnalyticsState)
    (pr : FetchRes Product) (rr : FetchRes RejectedItem) (cr : FetchRes FoodCondition)
    (h : (pr.error = true ∧ rr.error = false ∧ cr.error = false) ∨
      (pr.error = false ∧ rr.error = true ∧ cr.error = false) ∨
      (pr.error = false ∧ rr.error = false ∧ cr.error = true)) :
    fetchAllData s pr rr cr = { s with loading := false } := by
  unfold fetchAllData
  split_ifs with h1 h2 h3
  · rfl
  · rfl
  · rfl
  · exfalso
    rcases h with ⟨h, _, _⟩ | ⟨_, h, _⟩ | ⟨_, _, h⟩
    · exact h1 h
    · exact h2 h
    · exact h3 h

/-- Closed instance of the amended C4: the rejected-items fetch fails, the
other two succeed, and the resulting state is the prior one with loading
cleared. -/
theorem fetchAllData_failure_discards_all_witness :
    (((okRes [berasProduct] : FetchRes Product).error = true ∧
        (failRes : FetchRes RejectedItem).error = false ∧
        (okRes [] : FetchRes FoodCondition).error = false) ∨
      ((okRes [berasProduct] : FetchRes Product).error = false ∧
        (failRes : FetchRes RejectedItem).error = true ∧
        (okRes [] : FetchRes FoodCondition).error = false) ∨
      ((okRes [berasProduct] : FetchRes Product).error = false ∧
        (failRes : FetchRes RejectedItem).error = false ∧
        (okRes [] : FetchRes FoodCondition).error = true)) ∧
    fetchAllData ⟨[gulaProduct], [], [], true⟩ (okRes [berasProduct]) failRes
        (okRes []) =
      { (⟨[gulaProduct], [], [], true⟩ : AnalyticsState) with loading := false } :=
  ⟨Or.inr (Or.inl ⟨rfl, rfl, rfl⟩),
    fetchAllData_failure_discards_all ⟨[gulaProduct], [], [], true⟩
      (okRes [berasProduct]) failRes (okRes []) (Or.inr (Or.inl ⟨rfl, rfl, rfl⟩))⟩

/-- C6: the CSV export starts with the union header, contains exactly one
row per record, tags product rows 'Product' and rejected rows 'Rejected',
and lists each entity group in the order of the (descending-by-date) fetch
results. -/
theorem csvExport_structure (ps : List Product) (rs : List RejectedItem)
    (hp : ps.Pairwise (fun a b => dateGe a.created_at b.created_at))
    (hr : rs.Pairwise (fun a b => dateGe a.created_at b.created_at)) :
    (csvRows ps rs)[0]? = some csvHeader ∧
    (csvRows ps rs).length = 1 + (ps.length + rs.length) ∧
    (∀ i, i < ps.length → (csvRows ps rs)[i + 1]? = (ps[i]?).map productRow) ∧
    (∀ j, j < rs.length →
      (csvRows ps rs)[ps.length + j + 1]? = (rs[j]?).map rejectedRow) ∧
    (∀ p : Product, (productRow p)[0]? = some "Product") ∧
    (∀ r : RejectedItem, (rejectedRow r)[0]? = some "Rejected") ∧
    (ps.map (fun p => p.created_at)).Pairwise dateGe ∧
    (rs.map (fun r => r.created_at)).Pairwise dateGe := by
  refine ⟨by simp [csvRows], by simp [csvRows, Nat.add_comm], ?_, ?_,
    fun p => by simp [productRow], fun r => by simp [rejectedRow],
    hp.map _ (fun a b hab => hab), hr.map _ (fun a b hab => hab)⟩
  · intro i hi
    unfold csvRows
    rw [List.getElem?_cons_succ,
      List.getElem?_append_left (by simpa using hi), List.getElem?_map]
  · intro j hj
    unfold csvRows
    rw [List.getElem?_cons_succ, List.getElem?_append_right (by simp)]
    simp [List.getElem?_map]

/-- Closed instance of C6 at two products and one rejected item, both
groups sorted descending by creation date. -/
theorem csvExport_structure_witness :
    ([gulaProduct, berasProduct].Pairwise
        (fun a b => dateGe a.created_at b.created_at)) ∧
    ([tepungRejected].Pairwise (fun a b => dateGe a.created_at b.created_at)) ∧
    ((csvRows [gulaProduct, berasProduct] [tepungRejected])[0]? = some csvHeader ∧
      (csvRows [gulaProduct, berasProduct] [tepungRejected]).length = 1 + (2 + 1) ∧
      (∀ i, i < ([gulaProduct, berasProduct] : List Product).length →
        (csvRows [gulaProduct, berasProduct] [tepungRejected])[i + 1]? =
          (([gulaProduct, berasProduct] : List Product)[i]?).map productRow) ∧
      (∀ j, j < ([tepungRejected] : List RejectedItem).length →
        (csvRows [gulaProduct, berasProduct]
            [tepungRejected])[([gulaProduct, berasProduct] : List Product).length + j + 1]? =
          (([tepungRejected] : List RejectedItem)[j]?).map rejectedRow) ∧
      (∀ p : Product, (productRow p)[0]? = some "Product") ∧
      (∀ r : RejectedItem, (rejectedRow r)[0]? = some "Rejected") ∧
      (([gulaProduct, berasProduct] : List Product).map
        (fun p => p.created_at)).Pairwise dateGe ∧
      (([tepungRejected] : List RejectedItem).map
        (fun r => r.created_at)).Pairwise dateGe) :=
  ⟨by decide, by decide,
    csvExport_structure [gulaProduct, berasProduct] [tepungRejected]
      (by decide) (by decide)⟩

/-- C10: every data row of the CSV export has exactly 7 cells; product rows
carry the category, the quantity, the price and the total computed as price
times quantity in columns 4-7, and rejected rows carry the rejection reason
in the Category/Reason column with the "-" placeholder in the Price and
Total Value columns. -/
theorem csvDataRows_shape (ps : List Product) (rs : List RejectedItem) :
    (∀ row ∈ ps.map productRow ++ rs.map rejectedRow, row.length = 7) ∧
    (∀ p : Product, (productRow p).length = 7 ∧
      (productRow p)[3]? = some p.category ∧
      (productRow p)[4]? = some (Nat.repr p.quantity) ∧
      (productRow p)[5]? = some (Nat.repr p.price) ∧
      (productRow p)[6]? = some (Nat.repr (p.price * p.quantity))) ∧
    (∀ r : RejectedItem, (rejectedRow r).length = 7 ∧
      (rejectedRow r)[3]? = some r.reason ∧
      (rejectedRow r)[4]? = some (Nat.repr r.quantity) ∧
      (rejectedRow r)[5]? = some "-" ∧
      (rejectedRow r)[6]? = some "-") ∧
    csvHeader.length = 7 := by
  refine ⟨?_,
    fun p => ⟨rfl, by simp [productRow], by simp [productRow], by simp [productRow],
      by simp [productRow]⟩,
    fun r => ⟨rfl, by simp [rejectedRow], by simp [rejectedRow], by simp [rejectedRow],
      by simp [rejectedRow]⟩, rfl⟩
  intro row hrow
  rcases List.mem_append.mp hrow with hrow | hrow
  · rcases List.mem_map.mp hrow with ⟨p, _, rfl⟩
    rfl
  · rcases List.mem_map.mp hrow with ⟨r, _, rfl⟩
    rfl

/-- C3 is false on the code as stated: berasProduct carries no comma in any
of its string field values, yet its exported row, joined with ',' and split
on ',' again, yields 8 fields instead of the original 7 — the formatted
date cell ("Jan 01, 2026") introduces a comma of its own. -/
theorem csvRoundTrip_counterexample :
    (∀ f ∈ [berasProduct.id, berasProduct.name, berasProduct.category,
        berasProduct.color], ¬ ',' ∈ f.data) ∧
    (splitChar ',' (joinChar ',' (productRow berasProduct))).length = 8 ∧
    (productRow berasProduct).length = 7 := by
  decide

/-- C3 (amended): splitting each exported row on the delimiter returns the
original cells whenever every exported cell string — not merely the raw
record field values — is free of the comma delimiter; but the formatted
date cell of every data row always contains the delimiter (the "MMM dd,
yyyy" pattern has a literal comma), so the round-trip only survives for the
header row / empty record sets, and any field value containing the
delimiter breaks the field count further. -/
theorem csvRoundTrip_amended (ps : List Product) (rs : List RejectedItem)
    (h : ∀ row ∈ csvRows ps rs, ∀ cell ∈ row, ∀ c ∈ cell.data, ¬ c = ',') :
    (∀ row ∈ csvRows ps rs, splitChar ',' (joinChar ',' row) = row) ∧
    (∀ p : Product, ',' ∈ (formatMMMddyyyy p.created_at).data) ∧
    (∀ r : RejectedItem, ',' ∈ (formatMMMddyyyy r.created_at).data) := by
  have hcomma : ∀ d : Date, ',' ∈ (formatMMMddyyyy d).data := by
    intro d
    have hm : ',' ∈ (", " : String).data := by decide
    unfold formatMMMddyyyy
    simp only [String.data_append, List.mem_append]
    tauto
  refine ⟨?_, fun p => hcomma p.created_at, fun r => hcomma r.created_at⟩
  intro row hrow
  apply splitChar_joinChar
  · rcases List.mem_cons.mp hrow with rfl | hrow
    · simp [csvHeader]
    · rcases List.mem_append.mp hrow with hrow | hrow
      · rcases List.mem_map.mp hrow with ⟨p, _, rfl⟩
        simp [productRow]
      · rcases List.mem_map.mp hrow with ⟨r, _, rfl⟩
        simp [rejectedRow]
  · exact fun s hs c hc => h row hrow s hs c hc

/-- Closed instance of the amended C3 at empty record sets, where every
exported cell (header only) is free of the delimiter. -/
theorem csvRoundTrip_amended_witness :
    (∀ row ∈ csvRows [] [], ∀ cell ∈ row, ∀ c ∈ cell.data, ¬ c = ',') ∧
    ((∀ row ∈ csvRows [] [], splitChar ',' (joinChar ',' row) = row) ∧
      (∀ p : Product, ',' ∈ (formatMMMddyyyy p.created_at).data) ∧
      (∀ r : RejectedItem, ',' ∈ (formatMMMddyyyy r.created_at).data)) :=
  ⟨by decide, csvRoundTrip_amended [] [] (by decide)⟩

/-- C7: for any submitted product name, parseable quantity string and
reason, the handler inserts exactly one record whose status is the literal
"pending" and whose return number matches RET- followed by one or more
decimal digits; the record otherwise carries the form data unchanged, so no
client-side status transition occurs. -/
theorem handleSubmit_creates_pending (uid : String) (form : ReturnsForm)
    (now : Nat) (q : Int) (hq : jsParseInt form.quantity = some q) :
    ∃ r : ReturnInsert, handleSubmit (some uid) form now = some r ∧
      r.status = "pending" ∧ matchesRETNumber r.return_number = true ∧
      r.return_number = mkReturnNumber now ∧ r.quantity = q ∧
      r.product_name = form.product_name ∧ r.reason = form.reason := by
  refine ⟨_, rfl, rfl, matchesRETNumber_mkReturnNumber now, rfl, ?_, rfl, rfl⟩
  show (jsParseInt form.quantity).getD 0 = q
  rw [hq]
  rfl

/-- Closed instance of C7 at the section-8 scenario: quantity "5", reason
"damaged". -/
theorem handleSubmit_creates_pending_witness :
    jsParseInt ("5" : String) = some 5 ∧
    (∃ r : ReturnInsert,
      handleSubmit (some "u1") ⟨"Beras", "5", "damaged"⟩ 1760140800000 = some r ∧
        r.status = "pending" ∧ matchesRETNumber r.return_number = true ∧
        r.return_number = mkReturnNumber 1760140800000 ∧ r.quantity = 5 ∧
        r.product_name = "Beras" ∧ r.reason = "damaged") :=
  ⟨by decide,
    handleSubmit_creates_pending "u1" ⟨"Beras", "5", "damaged"⟩ 1760140800000 5
      (by decide)⟩

/-- C8: both export filenames are the deterministic
material-analytics-<YYYY-MM-DD>.<ext> strings, where <YYYY-MM-DD> is the
ISO date of the generation instant. -/
theorem exportFilenames_correct (t : DateTime) :
    pdfFilename t = "material-analytics-" ++ isoDate t ++ ".pdf" ∧
    csvFilename t = "material-analytics-" ++ isoDate t ++ ".csv" := by
  have hdata : (toISOString t).data = (isoDate t).data ++ 'T' ::
      (pad2 t.hour ++ ":" ++ pad2 t.minute ++ ":" ++ pad2 t.second ++ "." ++
        pad3 t.ms ++ "Z").data := by
    simp [toISOString, isoDate]
  have hsplit : splitChar 'T' (toISOString t) = isoDate t ::
      ((pad2 t.hour ++ ":" ++ pad2 t.minute ++ ":" ++ pad2 t.second ++ "." ++
          pad3 t.ms ++ "Z").data.splitOnP (fun c => c == 'T')).map
        (fun cs => (⟨cs⟩ : String)) := by
    unfold splitChar
    rw [hdata, List.splitOnP_first _ _ (isoDate_no_T t) 'T' (by decide)]
    rfl
  have hpart : isoDatePart t = isoDate t := by
    unfold isoDatePart
    rw [hsplit]
    rfl
  constructor
  · unfold pdfFilename
    rw [hpart]
  · unfold csvFilename
    rw [hpart]
